import Mathlib

/-!
Verification development for a Homebridge plugin driving Philips D-Line
signage displays over SICP-on-TCP (src/index.js).

The JavaScript source is shallowly embedded as follows.

* Bytes are `Nat` with explicit `% 256` wherever the source masks with
  `& 0xFF` (all masked quantities are non-negative, where `& 0xFF` and
  `% 256` agree); `Buffer.from` truncates every entry to a byte, rendered
  as a final `.map (fun b => b % 256)`.
* HomeKit numeric values (volume, brightness, input identifiers) are `Int`.
* The TCP Command Channel is an oracle `Nat → ChanResult`: each transmission
  consumes the next outcome, which is either the reply bytes collected until
  close/timeout-with-data, or a thrown error (socket error / timeout with no
  data).  An operation returns an `OpOut`: its result (`Except OpError`),
  the device state after the operation, the next oracle index, and the wire
  trace the operation produced (payloads handed to `_send`, plus the
  `delay(...)` suspensions of relative stepping and power-on settle).
* Command codes coming from configuration are modelled post-parse as
  `Option Nat` (`_parseCode` / the hex-string parsing in
  `_codeFromIdentifier` is the `% 256` masking applied at use sites; a
  missing or unparseable code is `none`).
* The `SendQueue` promise chain (src/index.js:23-40) is embedded
  denotationally: a settled promise is its event trace (sender invocations
  and resolutions) paired with its outcome, `p.then(job, job)` appends the
  handler's trace after the base promise's trace and adopts the handler's
  outcome, and `p.catch(() => {})` keeps the trace and always resolves.
-/

/-- src/index.js:20 `clamp(n, min, max) = Math.max(min, Math.min(max, n))`. -/
def clamp (n mn mx : Int) : Int := max mn (min mx n)

/-- XOR of a byte list, used to state the checksum invariant. -/
def xorBytes (l : List Nat) : Nat := l.foldl (fun c b => c ^^^ b) 0

/-- src/index.js:44 `body`: monitor id, optional group id, then the data bytes. -/
def sicpBody (monitorId : Nat) (dataBytes : List Nat) (includeGroup : Bool) (groupId : Nat) : List Nat :=
  if includeGroup then monitorId % 256 :: groupId % 256 :: dataBytes
  else monitorId % 256 :: dataBytes

/-- src/index.js:45-46 `arr`: the masked message size followed by the body;
`msgSize = 1 + body.length + 1` (size byte + body + checksum byte). -/
def sicpArr (monitorId : Nat) (dataBytes : List Nat) (includeGroup : Bool) (groupId : Nat) : List Nat :=
  (1 + (sicpBody monitorId dataBytes includeGroup groupId).length + 1) % 256
    :: sicpBody monitorId dataBytes includeGroup groupId

/-- src/index.js:43-51 `buildSicpPacket`: checksum is the XOR of every prior
byte (each masked to a byte); `Buffer.from` truncates all entries to bytes. -/
def buildSicpPacket (monitorId : Nat) (dataBytes : List Nat) (includeGroup : Bool) (groupId : Nat) : List Nat :=
  ((sicpArr monitorId dataBytes includeGroup groupId
      ++ [(sicpArr monitorId dataBytes includeGroup groupId).foldl (fun c b => c ^^^ (b % 256)) 0 % 256]).map
    (fun b => b % 256))

/-- Packet body exactly as the specification describes it (targetId, optional
groupId, payload, with no masking): used to compare the spec's packet shape
against `buildSicpPacket`. -/
def specBody (monitorId groupId : Nat) (includeGroup : Bool) (payload : List Nat) : List Nat :=
  if includeGroup then monitorId :: groupId :: payload else monitorId :: payload

/-- src/index.js:54-62 `parseReply` classification flags (the `raw` hex-dump
string is log-only and omitted). ACK sentinel 0x06, NACK 0x15, "not
available" 0x18. -/
structure ParsedReply where
  ok : Bool
  nack : Bool
  nav : Bool

/-- src/index.js:54-62 `parseReply`. -/
def parseReply (buf : List Nat) : ParsedReply :=
  { ok := buf.contains 0x06, nack := buf.contains 0x15, nav := buf.contains 0x18 }

/-! ### SendQueue (src/index.js:23-40), denotational promise model -/

/-- Events the Command Channel observes: invocation of the sender for
request `i`, and full resolution (success or failure) of that sender call. -/
inductive QEvent where
  | transmit (i : Nat)
  | settle (i : Nat)
deriving DecidableEq

/-- A settled promise: the event trace produced while it ran, and its
outcome. -/
structure Promise (α : Type) where
  events : List QEvent
  result : Except String α

/-- `p.then(onOk, onErr)`: the chosen handler runs only after `p` has fully
settled, so its events follow all of `p`'s events, and the resulting promise
adopts the handler's outcome. -/
def Promise.then2 {α β : Type} (p : Promise α) (onOk onErr : Promise β) : Promise β :=
  match p.result with
  | .ok _ => { events := p.events ++ onOk.events, result := onOk.result }
  | .error _ => { events := p.events ++ onErr.events, result := onErr.result }

/-- `p.catch(() => {})`: same events, always resolves. -/
def Promise.catchUnit {α : Type} (p : Promise α) : Promise Unit :=
  { events := p.events, result := .ok () }

/-- The job wrapping one sender call for request `i` (src/index.js:29-35):
invoking the sender is a `transmit i` event and its resolution a `settle i`
event; `o` is the sender's outcome, rethrown unchanged on failure. -/
def mkJob (i : Nat) (o : Except String (List Nat)) : Promise (List Nat) :=
  { events := [.transmit i, .settle i], result := o }

/-- src/index.js:28-39 `send(buf)`: `p = queue.then(job, job)` is returned to
the caller, and the stored queue becomes `p.catch(() => {})`. -/
def sqSend (queue : Promise Unit) (job : Promise (List Nat)) : Promise (List Nat) × Promise Unit :=
  (queue.then2 job job, (queue.then2 job job).catchUnit)

/-- Submit the jobs with outcomes `os` in order, numbering them from `i`,
against queue state `q`; returns the promises handed back to the callers and
the final queue. -/
def runQueueAux (q : Promise Unit) (i : Nat) :
    List (Except String (List Nat)) → List (Promise (List Nat)) × Promise Unit
  | [] => ([], q)
  | o :: rest =>
    ((sqSend q (mkJob i o)).1 :: (runQueueAux (sqSend q (mkJob i o)).2 (i + 1) rest).1,
     (runQueueAux (sqSend q (mkJob i o)).2 (i + 1) rest).2)

/-- Submit requests with sender outcomes `os` to a fresh `SendQueue`
(`this.queue = Promise.resolve()`, src/index.js:26). -/
def runQueue (os : List (Except String (List Nat))) : List (Promise (List Nat)) × Promise Unit :=
  runQueueAux { events := [], result := .ok () } 0 os

/-- The fully serialized trace: request `i` transmits, then settles, before
request `i+1` transmits. -/
def chainEvents (i n : Nat) : List QEvent :=
  match n with
  | 0 => []
  | Nat.succ m => .transmit i :: .settle i :: chainEvents (i + 1) m

/-- Project the index of a transmit event. -/
def qTransmit : QEvent → Option Nat
  | .transmit i => some i
  | .settle _ => none

/-! ### Device Control Engine (PhilipsDLineTelevisionAccessory) -/

/-- One Command Channel transmission outcome: the collected reply bytes, or a
thrown timeout/connection error with its message. -/
inductive ChanResult where
  | reply (bytes : List Nat)
  | fail (msg : String)

/-- Whether a channel outcome is a reply (as opposed to a thrown error). -/
def ChanResult.isOk : ChanResult → Bool
  | .reply _ => true
  | .fail _ => false

/-- Errors an engine operation can reject with: a propagated channel error,
or an explicit device rejection (NACK / "not available"). -/
inductive OpError where
  | channel (msg : String)
  | rejected (msg : String)

/-- src/index.js:346. -/
def rejectedCmdMsg : String := "Device rejected command"

/-- src/index.js:447. -/
def rejectedInputMsg : String := "Device rejected input change"

/-- One element of an operation's wire trace: the data bytes handed to
`_send` (src/index.js:500-504), or a `delay(ms)` suspension. -/
inductive WireEvt where
  | send (dataBytes : List Nat)
  | sleep (ms : Nat)

/-- Volume/brightness axis configuration after constructor defaulting
(src/index.js:129-155); codes are post-`_parseCode` inputs, `none` when the
corresponding config field is absent. -/
structure AxisConfig where
  min : Int
  max : Int
  initial : Int
  setCode : Option Nat
  upCode : Option Nat
  downCode : Option Nat
  stepMs : Nat

/-- One configured input (src/index.js:120-125): its HomeKit identifier and
its command code (`none` when the code is missing or unparseable, in which
case `_codeFromIdentifier` yields null). -/
structure InputDef where
  identifier : Int
  code : Option Nat

/-- Per-device configuration consumed by the engine. -/
structure DeviceConfig where
  monitorId : Nat
  includeGroup : Bool
  groupId : Nat
  inputs : List InputDef
  volume : AxisConfig
  muteSetCode : Option Nat
  muteToggleCode : Option Nat
  brightness : AxisConfig

/-- The accessory's mutable device state (src/index.js:141-159):
`this.active`, `this.activeIdentifier`, `this.volume.current`,
`this.volume.muted`, `this.brightness.current`. -/
structure DevState where
  active : Nat
  activeIdentifier : Int
  volCurrent : Int
  muted : Bool
  brightCurrent : Int

/-- Constructor state initialization (src/index.js:141, 153, 158-159). -/
def mkDeviceState (cfg : DeviceConfig) : DevState :=
  { active := 0
    activeIdentifier := ((cfg.inputs.head?).map InputDef.identifier).getD 1
    volCurrent := clamp cfg.volume.initial cfg.volume.min cfg.volume.max
    muted := false
    brightCurrent := clamp cfg.brightness.initial cfg.brightness.min cfg.brightness.max }

/-- Result of running one engine operation: the value or error it settles
with, the device state afterwards, the next oracle index, and the wire trace
it produced. -/
structure OpOut (α : Type) where
  res : Except OpError α
  st : DevState
  k : Nat
  trace : List WireEvt

/-- src/index.js:432-436 `_parseCode` (string/number parsing followed by
`& 0xFF`). -/
def parseCode (c : Nat) : Nat := c % 256

/-- src/index.js:339-360 `handleSetActive`: sends Set Power
`[0x18, on ? 0x02 : 0x01]`, rejects on NACK / "not available", commits
`this.active` only on success, and rethrows every failure after reverting
the characteristic (a UI side effect outside `DevState`). -/
def handleSetActive (_cfg : DeviceConfig) (st : DevState) (oracle : Nat → ChanResult)
    (k : Nat) (onv : Bool) : OpOut Unit :=
  match oracle k with
  | .fail m =>
    ⟨.error (.channel m), st, k + 1, [.send [0x18, if onv then 0x02 else 0x01]]⟩
  | .reply bs =>
    if (parseReply bs).nack || (parseReply bs).nav then
      ⟨.error (.rejected rejectedCmdMsg), st, k + 1, [.send [0x18, if onv then 0x02 else 0x01]]⟩
    else
      ⟨.ok (), { st with active := if onv then 1 else 0 }, k + 1,
        [.send [0x18, if onv then 0x02 else 0x01]]⟩

/-- src/index.js:415-420 `_ensureOn`: when `this.active !== 1`, run
`handleSetActive(1)` (propagating its failure) and then settle for 300ms. -/
def ensureOn (cfg : DeviceConfig) (st : DevState) (oracle : Nat → ChanResult) (k : Nat) : OpOut Unit :=
  if st.active ≠ 1 then
    match handleSetActive cfg st oracle k true with
    | ⟨.ok _, st1, k1, tr1⟩ => ⟨.ok (), st1, k1, tr1 ++ [.sleep 300]⟩
    | ⟨.error e, st1, k1, tr1⟩ => ⟨.error e, st1, k1, tr1⟩
  else ⟨.ok (), st, k, []⟩

/-- The relative-stepping loop (src/index.js:383-386 and 473-476): send the
single-step code `n` times, sleeping `ms` after each successful send; a
thrown send aborts the loop and propagates. Returns the result, the next
oracle index, and the loop's wire trace. -/
def stepLoop (oracle : Nat → ChanResult) (k n code ms : Nat) :
    Except OpError Unit × Nat × List WireEvt :=
  match n with
  | 0 => (.ok (), k, [])
  | Nat.succ m =>
    match oracle k with
    | .fail s => (.error (.channel s), k + 1, [.send [code]])
    | .reply _ =>
      match stepLoop oracle (k + 1) m code ms with
      | (r, k2, tr) => (r, k2, .send [code] :: .sleep ms :: tr)

/-- The wire trace of `n` successful single-step sends of `code`, each
followed by the inter-step delay `ms`. -/
def stepTrace (n code ms : Nat) : List WireEvt :=
  match n with
  | 0 => []
  | Nat.succ m => .send [code] :: .sleep ms :: stepTrace m code ms

/-- src/index.js:372-378: absolute volume payload; code 0x44 carries the
extra `0xFF` "no change" Audio Out byte. -/
def volSetPayload (sc : Nat) (target : Int) : List Nat :=
  if parseCode sc = 0x44 then [parseCode sc, (target % 256).toNat, 0xFF]
  else [parseCode sc, (target % 256).toNat]

/-- src/index.js:367-392 `handleSetVolume`: clamp, `_ensureOn`, then absolute
set / relative stepping / warn-only fallthrough, committing
`this.volume.current = target` after the chosen mode completes. -/
def handleSetVolume (cfg : DeviceConfig) (st : DevState) (oracle : Nat → ChanResult)
    (k : Nat) (val : Int) : OpOut Unit :=
  match ensureOn cfg st oracle k with
  | ⟨.error e, st1, k1, tr1⟩ => ⟨.error e, st1, k1, tr1⟩
  | ⟨.ok _, st1, k1, tr1⟩ =>
    match cfg.volume.setCode with
    | some sc =>
      match oracle k1 with
      | .fail m =>
        ⟨.error (.channel m), st1, k1 + 1,
          tr1 ++ [.send (volSetPayload sc (clamp val cfg.volume.min cfg.volume.max))]⟩
      | .reply _ =>
        ⟨.ok (), { st1 with volCurrent := clamp val cfg.volume.min cfg.volume.max }, k1 + 1,
          tr1 ++ [.send (volSetPayload sc (clamp val cfg.volume.min cfg.volume.max))]⟩
    | none =>
      match cfg.volume.upCode, cfg.volume.downCode with
      | some up, some down =>
        match stepLoop oracle k1
            (clamp val cfg.volume.min cfg.volume.max - st1.volCurrent).natAbs
            (if clamp val cfg.volume.min cfg.volume.max - st1.volCurrent > 0 then parseCode up
             else parseCode down)
            cfg.volume.stepMs with
        | (.ok _, k2, tr2) =>
          ⟨.ok (), { st1 with volCurrent := clamp val cfg.volume.min cfg.volume.max }, k2,
            tr1 ++ tr2⟩
        | (.error e, k2, tr2) => ⟨.error e, st1, k2, tr1 ++ tr2⟩
      | _, _ =>
        ⟨.ok (), { st1 with volCurrent := clamp val cfg.volume.min cfg.volume.max }, k1, tr1⟩

/-- src/index.js:394-411 `handleSetMute`: `_ensureOn`, then absolute mute
set, or a single toggle only when the desired state differs, or a warn-only
fallthrough; commits `this.volume.muted = mute` after the branch. -/
def handleSetMute (cfg : DeviceConfig) (st : DevState) (oracle : Nat → ChanResult)
    (k : Nat) (mute : Bool) : OpOut Unit :=
  match ensureOn cfg st oracle k with
  | ⟨.error e, st1, k1, tr1⟩ => ⟨.error e, st1, k1, tr1⟩
  | ⟨.ok _, st1, k1, tr1⟩ =>
    match cfg.muteSetCode with
    | some mc =>
      match oracle k1 with
      | .fail m =>
        ⟨.error (.channel m), st1, k1 + 1, tr1 ++ [.send [parseCode mc, if mute then 0x01 else 0x00]]⟩
      | .reply _ =>
        ⟨.ok (), { st1 with muted := mute }, k1 + 1,
          tr1 ++ [.send [parseCode mc, if mute then 0x01 else 0x00]]⟩
    | none =>
      match cfg.muteToggleCode with
      | some tc =>
        if mute ≠ st1.muted then
          match oracle k1 with
          | .fail m => ⟨.error (.channel m), st1, k1 + 1, tr1 ++ [.send [parseCode tc]]⟩
          | .reply _ => ⟨.ok (), { st1 with muted := mute }, k1 + 1, tr1 ++ [.send [parseCode tc]]⟩
        else ⟨.ok (), { st1 with muted := mute }, k1, tr1⟩
      | none => ⟨.ok (), { st1 with muted := mute }, k1, tr1⟩

/-- src/index.js:422-430 `_codeFromIdentifier`: find the input with this
identifier; null when absent or when its code is missing/unparseable,
otherwise the parsed code masked to a byte. -/
def codeFromIdentifier (cfg : DeviceConfig) (identifier : Int) : Option Nat :=
  match cfg.inputs.find? (fun x => x.identifier == identifier) with
  | none => none
  | some inp =>
    match inp.code with
    | none => none
    | some c => some (c % 256)

/-- src/index.js:438-457 `_setInputByIdentifier`: with an unknown identifier
it logs an error and returns (resolving successfully, with no wire traffic
and no state change); otherwise sends Set Input `[0xAC, code]`, rejects on
NACK / "not available", and commits `this.activeIdentifier` on success. -/
def setInputByIdentifier (cfg : DeviceConfig) (st : DevState) (oracle : Nat → ChanResult)
    (k : Nat) (identifier : Int) : OpOut Unit :=
  match codeFromIdentifier cfg identifier with
  | none => ⟨.ok (), st, k, []⟩
  | some code =>
    match oracle k with
    | .fail m => ⟨.error (.channel m), st, k + 1, [.send [0xAC, code]]⟩
    | .reply bs =>
      if (parseReply bs).nack || (parseReply bs).nav then
        ⟨.error (.rejected rejectedInputMsg), st, k + 1, [.send [0xAC, code]]⟩
      else
        ⟨.ok (), { st with activeIdentifier := identifier }, k + 1, [.send [0xAC, code]]⟩

/-- src/index.js:362-365 `handleSetActiveIdentifier`: `_ensureOn` then
`_setInputByIdentifier`. -/
def handleSetActiveIdentifier (cfg : DeviceConfig) (st : DevState) (oracle : Nat → ChanResult)
    (k : Nat) (identifier : Int) : OpOut Unit :=
  match ensureOn cfg st oracle k with
  | ⟨.error e, st1, k1, tr1⟩ => ⟨.error e, st1, k1, tr1⟩
  | ⟨.ok _, st1, k1, tr1⟩ =>
    ⟨(setInputByIdentifier cfg st1 oracle k1 identifier).res,
     (setInputByIdentifier cfg st1 oracle k1 identifier).st,
     (setInputByIdentifier cfg st1 oracle k1 identifier).k,
     tr1 ++ (setInputByIdentifier cfg st1 oracle k1 identifier).trace⟩

/-- src/index.js:308-337 `handleGetActive`: sends Get Power `[0x19]`; on a
reply, sets `this.active` to 1 if the bytes contain 0x02, else 0 if they
contain 0x01, else leaves it untouched, and returns `this.active`; on a
thrown channel error, assumes OFF and returns 0.  Never rejects. -/
def handleGetActive (_cfg : DeviceConfig) (st : DevState) (oracle : Nat → ChanResult)
    (k : Nat) : OpOut Nat :=
  match oracle k with
  | .reply bs =>
    ⟨.ok (if bs.contains 0x02 then 1 else if bs.contains 0x01 then 0 else st.active),
     { st with active := if bs.contains 0x02 then 1 else if bs.contains 0x01 then 0 else st.active },
     k + 1, [.send [0x19]]⟩
  | .fail _ => ⟨.ok 0, { st with active := 0 }, k + 1, [.send [0x19]]⟩

/-- src/index.js:461-469: absolute brightness payload; code 0x32 (Video
Parameters) carries seven `0xFF` "no change" filler bytes. -/
def brightSetPayload (sc : Nat) (target : Int) : List Nat :=
  if parseCode sc = 0x32 then
    [parseCode sc, (target % 256).toNat, 0xFF, 0xFF, 0xFF, 0xFF, 0xFF, 0xFF]
  else [parseCode sc, (target % 256).toNat]

/-- src/index.js:459-498 `_setBrightness` (no `_ensureOn` here; the
Lightbulb handlers gate on `this.active` before calling it): absolute set,
or relative stepping, or the default-0x32 fallback whose send failure is
caught and only logged; `this.brightness.current = target` commits after
the branch — in the fallback branch even when the send threw. -/
def setBrightness (cfg : DeviceConfig) (st : DevState) (oracle : Nat → ChanResult)
    (k : Nat) (val : Int) : OpOut Unit :=
  match cfg.brightness.setCode with
  | some sc =>
    match oracle k with
    | .fail m =>
      ⟨.error (.channel m), st, k + 1,
        [.send (brightSetPayload sc (clamp val cfg.brightness.min cfg.brightness.max))]⟩
    | .reply _ =>
      ⟨.ok (), { st with brightCurrent := clamp val cfg.brightness.min cfg.brightness.max }, k + 1,
        [.send (brightSetPayload sc (clamp val cfg.brightness.min cfg.brightness.max))]⟩
  | none =>
    match cfg.brightness.upCode, cfg.brightness.downCode with
    | some up, some down =>
      match stepLoop oracle k
          (clamp val cfg.brightness.min cfg.brightness.max - st.brightCurrent).natAbs
          (if clamp val cfg.brightness.min cfg.brightness.max - st.brightCurrent > 0 then parseCode up
           else parseCode down)
          cfg.brightness.stepMs with
      | (.ok _, k2, tr2) =>
        ⟨.ok (), { st with brightCurrent := clamp val cfg.brightness.min cfg.brightness.max }, k2, tr2⟩
      | (.error e, k2, tr2) => ⟨.error e, st, k2, tr2⟩
    | _, _ =>
      match oracle k with
      | .reply _ =>
        ⟨.ok (), { st with brightCurrent := clamp val cfg.brightness.min cfg.brightness.max }, k + 1,
          [.send [0x32, ((clamp val cfg.brightness.min cfg.brightness.max) % 256).toNat,
            0xFF, 0xFF, 0xFF, 0xFF, 0xFF, 0xFF]]⟩
      | .fail _ =>
        ⟨.ok (), { st with brightCurrent := clamp val cfg.brightness.min cfg.brightness.max }, k + 1,
          [.send [0x32, ((clamp val cfg.brightness.min cfg.brightness.max) % 256).toNat,
            0xFF, 0xFF, 0xFF, 0xFF, 0xFF, 0xFF]]⟩

/-- The control-axis invariant of the data model: `min ≤ current ≤ max` for
both axes. -/
def axisInv (cfg : DeviceConfig) (st : DevState) : Prop :=
  cfg.volume.min ≤ st.volCurrent ∧ st.volCurrent ≤ cfg.volume.max
    ∧ cfg.brightness.min ≤ st.brightCurrent ∧ st.brightCurrent ≤ cfg.brightness.max

/-- State `st1` differs from `st0` in none of an operation's own committed
fields; `active` may additionally have been committed to 1 by a successful
nested `_ensureOn`. -/
def ownFrame (st0 st1 : DevState) : Prop :=
  st1.volCurrent = st0.volCurrent ∧ st1.muted = st0.muted
    ∧ st1.brightCurrent = st0.brightCurrent ∧ st1.activeIdentifier = st0.activeIdentifier
    ∧ (st1.active = st0.active ∨ st1.active = 1)

/-! ### Concrete fixtures for witnesses and counterexamples -/

/-- A connection-refused message for concrete channel failures. -/
def failMsg : String := "ECONNREFUSED"

/-- A channel on which every transmission fails. -/
def oracleFail : Nat → ChanResult := fun _ => ChanResult.fail failMsg

/-- A channel on which every transmission is answered with a bare ACK. -/
def oracleAck : Nat → ChanResult := fun _ => ChanResult.reply [0x06]

/-- Absolute volume axis, SICP code 0x44. -/
def axAbs : AxisConfig :=
  { min := 0, max := 100, initial := 15, setCode := some 0x44, upCode := none, downCode := none,
    stepMs := 120 }

/-- Relative volume axis: up 1, down 2. -/
def axRel : AxisConfig :=
  { min := 0, max := 100, initial := 15, setCode := none, upCode := some 1, downCode := some 2,
    stepMs := 120 }

/-- Relative brightness axis: up 3, down 4. -/
def axRelB : AxisConfig :=
  { min := 0, max := 100, initial := 50, setCode := none, upCode := some 3, downCode := some 4,
    stepMs := 120 }

/-- Axis with only an up code: neither absolute nor a full up/down pair. -/
def axHalf : AxisConfig :=
  { min := 0, max := 100, initial := 15, setCode := none, upCode := some 3, downCode := none,
    stepMs := 120 }

/-- Fully unconfigured axis. -/
def axNone : AxisConfig :=
  { min := 0, max := 100, initial := 50, setCode := none, upCode := none, downCode := none,
    stepMs := 120 }

/-- Device with absolute volume, unconfigured brightness, one input. -/
def cfgA : DeviceConfig :=
  { monitorId := 1, includeGroup := true, groupId := 0, inputs := [⟨1, some 0x0D⟩],
    volume := axAbs, muteSetCode := none, muteToggleCode := none, brightness := axNone }

/-- Device with relative volume and relative brightness. -/
def cfgRel : DeviceConfig :=
  { monitorId := 1, includeGroup := true, groupId := 0, inputs := [⟨1, some 0x0D⟩],
    volume := axRel, muteSetCode := none, muteToggleCode := none, brightness := axRelB }

/-- Device whose volume axis has only an up code configured. -/
def cfgHalf : DeviceConfig :=
  { monitorId := 1, includeGroup := true, groupId := 0, inputs := [⟨1, some 0x0D⟩],
    volume := axHalf, muteSetCode := none, muteToggleCode := none, brightness := axNone }

/-- A powered-on state: volume 10, unmuted, brightness 50, input 1. -/
def stOn : DevState :=
  { active := 1, activeIdentifier := 1, volCurrent := 10, muted := false, brightCurrent := 50 }

/-! ### Packet codec lemmas -/

theorem foldl_xor_mod (l : List Nat) (a : Nat) (h : ∀ b ∈ l, b < 256) :
    l.foldl (fun c b => c ^^^ (b % 256)) a = l.foldl (fun c b => c ^^^ b) a := by
  induction l generalizing a with
  | nil => rfl
  | cons x xs ih =>
    have hx : x < 256 := h x (List.mem_cons_self x xs)
    simp only [List.foldl_cons, Nat.mod_eq_of_lt hx]
    exact ih (a ^^^ x) (fun b hb => h b (List.mem_cons_of_mem x hb))

theorem foldl_xor_lt (l : List Nat) (a : Nat) (ha : a < 256) (h : ∀ b ∈ l, b < 256) :
    l.foldl (fun c b => c ^^^ b) a < 256 := by
  induction l generalizing a with
  | nil => exact ha
  | cons x xs ih =>
    have hx : x < 256 := h x (List.mem_cons_self x xs)
    have hxor : a ^^^ x < 256 := by
      have h8 : (256 : Nat) = 2 ^ 8 := by norm_num
      rw [h8] at ha hx ⊢
      exact Nat.xor_lt_two_pow ha hx
    exact ih (a ^^^ x) hxor (fun b hb => h b (List.mem_cons_of_mem x hb))

theorem map_mod_eq_self (l : List Nat) (h : ∀ b ∈ l, b < 256) :
    l.map (fun b => b % 256) = l := by
  induction l with
  | nil => rfl
  | cons x xs ih =>
    simp only [List.map_cons, Nat.mod_eq_of_lt (h x (List.mem_cons_self x xs))]
    rw [ih (fun b hb => h b (List.mem_cons_of_mem x hb))]

theorem xorBytes_append_self (l : List Nat) : xorBytes (l ++ [xorBytes l]) = 0 := by
  simp [xorBytes, List.foldl_append]

theorem sicpBody_eq_specBody (m g : Nat) (inc : Bool) (p : List Nat)
    (hm : m < 256) (hg : g < 256) :
    sicpBody m p inc g = specBody m g inc p := by
  cases inc <;> simp [sicpBody, specBody, Nat.mod_eq_of_lt hm, Nat.mod_eq_of_lt hg]

/-! ### Claim C1 — packet framing and checksum -/

set_option maxRecDepth 4096 in
/-- C1, as stated, fails on the code for payloads long enough that the size
byte wraps: with a 254-byte payload and group addressing the body has 256
bytes, the claimed size is `1 + 256 + 1 = 258`, but the encoder masks the
size byte with `& 0xFF` and emits `2`, so the packet is not
`[size, targetId, groupId, ...payload, checksum]` at this input. -/
theorem c1_counterexample :
    buildSicpPacket 1 (List.replicate 254 0) true 0
      ≠ ((1 + (specBody 1 0 true (List.replicate 254 0)).length + 1)
            :: specBody 1 0 true (List.replicate 254 0))
          ++ [xorBytes ((1 + (specBody 1 0 true (List.replicate 254 0)).length + 1)
            :: specBody 1 0 true (List.replicate 254 0))] := by
  decide

/-- C1 (amended): for every monitorId byte, group-addressing setting, and
payload byte list, the encoded packet is
`[(1 + |body| + 1) % 256, targetId, (groupId when enabled), ...payload, checksum]`
— the size byte is reduced mod 256 — where the checksum is the XOR of all
preceding bytes, and the XOR of the whole packet is 0. -/
theorem c1_thm (m g : Nat) (inc : Bool) (p : List Nat)
    (hm : m < 256) (hg : g < 256) (hp : ∀ b ∈ p, b < 256) :
    buildSicpPacket m p inc g
      = ((1 + (specBody m g inc p).length + 1) % 256 :: specBody m g inc p)
          ++ [xorBytes ((1 + (specBody m g inc p).length + 1) % 256 :: specBody m g inc p)]
    ∧ xorBytes (buildSicpPacket m p inc g) = 0 := by
  have hB : ∀ b ∈ specBody m g inc p, b < 256 := by
    intro b hb
    cases inc with
    | true =>
      have hb2 : b ∈ m :: g :: p := hb
      rcases List.mem_cons.mp hb2 with h | hb3
      · rw [h]; exact hm
      · rcases List.mem_cons.mp hb3 with h | h
        · rw [h]; exact hg
        · exact hp b h
    | false =>
      have hb2 : b ∈ m :: p := hb
      rcases List.mem_cons.mp hb2 with h | h
      · rw [h]; exact hm
      · exact hp b h
  have harr : ∀ b ∈ (1 + (specBody m g inc p).length + 1) % 256 :: specBody m g inc p, b < 256 := by
    intro b hb
    rcases List.mem_cons.mp hb with h | h
    · rw [h]; exact Nat.mod_lt _ (by norm_num)
    · exact hB b h
  have hA : sicpArr m p inc g
      = (1 + (specBody m g inc p).length + 1) % 256 :: specBody m g inc p := by
    unfold sicpArr
    rw [sicpBody_eq_specBody m g inc p hm hg]
  have hxlt : ((1 + (specBody m g inc p).length + 1) % 256 :: specBody m g inc p).foldl
      (fun c b => c ^^^ b) 0 < 256 :=
    foldl_xor_lt _ 0 (by norm_num) harr
  have h1 : buildSicpPacket m p inc g
      = ((1 + (specBody m g inc p).length + 1) % 256 :: specBody m g inc p)
          ++ [xorBytes ((1 + (specBody m g inc p).length + 1) % 256 :: specBody m g inc p)] := by
    unfold buildSicpPacket
    rw [hA, foldl_xor_mod _ 0 harr, Nat.mod_eq_of_lt hxlt]
    refine map_mod_eq_self _ ?_
    intro b hb
    rcases List.mem_append.mp hb with h | h
    · exact harr b h
    · simp only [List.mem_singleton] at h
      rw [h]; exact hxlt
  exact ⟨h1, by rw [h1]; exact xorBytes_append_self _⟩

/-- C1 witness: the amended shape at the Set Power packet of the scenario
device (monitor 1, group 0, payload [0x18, 0x02]). -/
theorem c1_witness :
    buildSicpPacket 1 [0x18, 0x02] true 0
      = ((1 + (specBody 1 0 true [0x18, 0x02]).length + 1) % 256 :: specBody 1 0 true [0x18, 0x02])
          ++ [xorBytes ((1 + (specBody 1 0 true [0x18, 0x02]).length + 1) % 256
                :: specBody 1 0 true [0x18, 0x02])]
    ∧ xorBytes (buildSicpPacket 1 [0x18, 0x02] true 0) = 0 :=
  c1_thm 1 0 true [0x18, 0x02] (by norm_num) (by norm_num) (by decide)

/-! ### Claim C7 — the Set Power(On) scenario packet -/

/-- C7, as stated, is false on the code: the scenario's packet
`[0x04, 0x01, 0x00, 0x18, 0x02, 0x04^0x01^0x00^0x18^0x02]` is not what the
encoder produces for monitorId 1, group enabled, groupId 0, payload
[0x18, 0x02] — the size byte is `1 + body(4) + 1 = 6`, not 4. -/
theorem c7_counterexample :
    buildSicpPacket 1 [0x18, 0x02] true 0
      ≠ [0x04, 0x01, 0x00, 0x18, 0x02, 0x04 ^^^ 0x01 ^^^ 0x00 ^^^ 0x18 ^^^ 0x02] := by
  decide

/-- C7 (amended): with targetId 1, group enabled, groupId 0, SetPower(On)
sends payload [0x18, 0x02], and the encoder frames it as
`[0x06, 0x01, 0x00, 0x18, 0x02, checksum]` with
`checksum = 0x06^0x01^0x00^0x18^0x02 = 0x1D`. -/
theorem c7_thm :
    (handleSetActive cfgA stOn oracleAck 0 true).trace = [WireEvt.send [0x18, 0x02]]
    ∧ buildSicpPacket 1 [0x18, 0x02] true 0
        = [0x06, 0x01, 0x00, 0x18, 0x02, 0x06 ^^^ 0x01 ^^^ 0x00 ^^^ 0x18 ^^^ 0x02]
    ∧ (0x06 ^^^ 0x01 ^^^ 0x00 ^^^ 0x18 ^^^ 0x02 : Nat) = 0x1D := by
  refine ⟨rfl, by decide, by decide⟩

/-! ### Claim C8 — reply classification -/

/-- C8: for any reply byte sequence containing the ACK sentinel 0x06 and
containing neither the NACK sentinel 0x15 nor the not-available sentinel
0x18, `parseReply` reports ok and reports neither nack nor nav. -/
theorem c8_thm (bytes : List Nat) (h6 : bytes.contains 0x06 = true)
    (h21 : bytes.contains 0x15 = false) (h24 : bytes.contains 0x18 = false) :
    (parseReply bytes).ok = true ∧ (parseReply bytes).nack = false
      ∧ (parseReply bytes).nav = false :=
  ⟨h6, h21, h24⟩

/-- C8 witness: the reply [0x02, 0x06]. -/
theorem c8_witness :
    (parseReply [0x02, 0x06]).ok = true ∧ (parseReply [0x02, 0x06]).nack = false
      ∧ (parseReply [0x02, 0x06]).nav = false :=
  c8_thm [0x02, 0x06] rfl rfl rfl

/-! ### Claim C3 — SendQueue serialization -/

theorem sqSend_eval (q : Promise Unit) (i : Nat) (o : Except String (List Nat)) :
    sqSend q (mkJob i o)
      = (⟨q.events ++ [.transmit i, .settle i], o⟩,
         ⟨q.events ++ [.transmit i, .settle i], .ok ()⟩) := by
  cases q with
  | mk ev r => cases r <;> simp [sqSend, Promise.then2, Promise.catchUnit, mkJob]

theorem runQueueAux_spec (os : List (Except String (List Nat))) (q : Promise Unit) (i : Nat) :
    (runQueueAux q i os).1.map Promise.result = os
    ∧ (runQueueAux q i os).2.events = q.events ++ chainEvents i os.length := by
  induction os generalizing q i with
  | nil => simp [runQueueAux, chainEvents]
  | cons o rest ih =>
    obtain ⟨ih1, ih2⟩ := ih ⟨q.events ++ [.transmit i, .settle i], .ok ()⟩ (i + 1)
    refine ⟨?_, ?_⟩
    · simp [runQueueAux, sqSend_eval, ih1]
    · simp [runQueueAux, sqSend_eval, ih2, chainEvents]

theorem chainEvents_transmits (n i : Nat) :
    (chainEvents i n).filterMap qTransmit = (List.range n).map (fun j => i + j) := by
  induction n generalizing i with
  | zero => simp [chainEvents]
  | succ m ih =>
    have hf : (fun j => (i + 1) + j) = (fun j => i + (j + 1)) := by
      funext j; omega
    rw [chainEvents, List.range_succ_eq_map]
    simp only [List.filterMap_cons, qTransmit, List.map_cons, List.map_map, Function.comp]
    rw [ih (i + 1), hf]
    simp

/-- C3: submitting N send requests (in submission order, with arbitrary
per-request sender outcomes `os`) to one SendQueue yields (1) each caller's
promise settling with exactly its own sender outcome — so one request's
failure neither fails nor suppresses any request queued behind it; (2) the
event trace `transmit 0, settle 0, transmit 1, settle 1, ...` — each
transmission begins only after the previous sender call has fully resolved;
and (3) the sender is invoked exactly once per request, in submission
order. -/
theorem c3_thm (os : List (Except String (List Nat))) :
    (runQueue os).1.map Promise.result = os
    ∧ (runQueue os).2.events = chainEvents 0 os.length
    ∧ (runQueue os).2.events.filterMap qTransmit = List.range os.length := by
  obtain ⟨h1, h2⟩ := runQueueAux_spec os ⟨[], .ok ()⟩ 0
  have h2s : (runQueue os).2.events = chainEvents 0 os.length := by
    simpa [runQueue] using h2
  refine ⟨by simpa [runQueue] using h1, h2s, ?_⟩
  rw [h2s, chainEvents_transmits]
  simp

/-! ### Engine case-analysis lemmas -/

theorem handleSetActive_cases (cfg : DeviceConfig) (st : DevState) (oracle : Nat → ChanResult)
    (k : Nat) (onv : Bool) :
    ((handleSetActive cfg st oracle k onv).res = .ok ()
        ∧ (handleSetActive cfg st oracle k onv).st = { st with active := if onv then 1 else 0 })
    ∨ ((∃ e, (handleSetActive cfg st oracle k onv).res = .error e)
        ∧ (handleSetActive cfg st oracle k onv).st = st) := by
  cases h : oracle k with
  | fail m =>
    exact Or.inr ⟨⟨.channel m, by simp [handleSetActive, h]⟩, by simp [handleSetActive, h]⟩
  | reply bs =>
    cases hn : (parseReply bs).nack || (parseReply bs).nav with
    | true =>
      exact Or.inr ⟨⟨.rejected rejectedCmdMsg, by simp [handleSetActive, h, hn]⟩,
        by simp [handleSetActive, h, hn]⟩
    | false =>
      exact Or.inl ⟨by simp [handleSetActive, h, hn], by simp [handleSetActive, h, hn]⟩

theorem ensureOn_active_one (cfg : DeviceConfig) (st : DevState) (oracle : Nat → ChanResult)
    (k : Nat) (h : st.active = 1) :
    ensureOn cfg st oracle k = ⟨.ok (), st, k, []⟩ := by
  simp [ensureOn, h]

theorem ensureOn_cases (cfg : DeviceConfig) (st : DevState) (oracle : Nat → ChanResult) (k : Nat) :
    ensureOn cfg st oracle k = ⟨.ok (), st, k, []⟩
    ∨ (∃ m, ensureOn cfg st oracle k = ⟨.error (.channel m), st, k + 1, [.send [0x18, 0x02]]⟩)
    ∨ ensureOn cfg st oracle k = ⟨.error (.rejected rejectedCmdMsg), st, k + 1, [.send [0x18, 0x02]]⟩
    ∨ ensureOn cfg st oracle k
        = ⟨.ok (), { st with active := 1 }, k + 1, [.send [0x18, 0x02], .sleep 300]⟩ := by
  by_cases ha : st.active = 1
  · exact Or.inl (ensureOn_active_one cfg st oracle k ha)
  · cases h : oracle k with
    | fail m =>
      exact Or.inr (Or.inl ⟨m, by simp [ensureOn, ha, handleSetActive, h]⟩)
    | reply bs =>
      cases hn : (parseReply bs).nack || (parseReply bs).nav with
      | true => exact Or.inr (Or.inr (Or.inl (by simp [ensureOn, ha, handleSetActive, h, hn])))
      | false => exact Or.inr (Or.inr (Or.inr (by simp [ensureOn, ha, handleSetActive, h, hn])))

theorem ensureOn_allfail (cfg : DeviceConfig) (st : DevState) (oracle : Nat → ChanResult) (k : Nat)
    (hf : ∀ j, (oracle j).isOk = false) :
    (st.active = 1 ∧ ensureOn cfg st oracle k = ⟨.ok (), st, k, []⟩)
    ∨ (∃ m, ensureOn cfg st oracle k = ⟨.error (.channel m), st, k + 1, [.send [0x18, 0x02]]⟩) := by
  by_cases ha : st.active = 1
  · exact Or.inl ⟨ha, ensureOn_active_one cfg st oracle k ha⟩
  · cases h : oracle k with
    | fail m => exact Or.inr ⟨m, by simp [ensureOn, ha, handleSetActive, h]⟩
    | reply bs =>
      have hk := hf k
      rw [h] at hk
      simp [ChanResult.isOk] at hk

theorem stepLoop_ok (oracle : Nat → ChanResult) (k n code ms : Nat)
    (hok : ∀ j, (oracle j).isOk = true) :
    stepLoop oracle k n code ms = (.ok (), k + n, stepTrace n code ms) := by
  induction n generalizing k with
  | zero => simp [stepLoop, stepTrace]
  | succ m ih =>
    cases h : oracle k with
    | fail s =>
      have hk := hok k
      rw [h] at hk
      simp [ChanResult.isOk] at hk
    | reply bs =>
      have hrec := ih (k + 1)
      simp [stepLoop, h, hrec, stepTrace]
      omega

theorem stepLoop_cases (oracle : Nat → ChanResult) (k n code ms : Nat) :
    (∃ k2 tr2, stepLoop oracle k n code ms = (.ok (), k2, tr2))
    ∨ (∃ m k2 tr2, stepLoop oracle k n code ms = (.error (.channel m), k2, tr2)) := by
  induction n generalizing k with
  | zero => exact Or.inl ⟨k, [], rfl⟩
  | succ m ih =>
    cases h : oracle k with
    | fail s => exact Or.inr ⟨s, k + 1, [.send [code]], by simp [stepLoop, h]⟩
    | reply bs =>
      rcases ih (k + 1) with ⟨k2, tr2, hh⟩ | ⟨s, k2, tr2, hh⟩
      · exact Or.inl ⟨k2, .send [code] :: .sleep ms :: tr2, by simp [stepLoop, h, hh]⟩
      · exact Or.inr ⟨s, k2, .send [code] :: .sleep ms :: tr2, by simp [stepLoop, h, hh]⟩

theorem stepLoop_allfail (oracle : Nat → ChanResult) (k n code ms : Nat)
    (hf : ∀ j, (oracle j).isOk = false) :
    (n = 0 ∧ stepLoop oracle k n code ms = (.ok (), k, []))
    ∨ (∃ m, stepLoop oracle k n code ms = (.error (.channel m), k + 1, [.send [code]])) := by
  cases n with
  | zero => exact Or.inl ⟨rfl, rfl⟩
  | succ m =>
    cases h : oracle k with
    | fail s => exact Or.inr ⟨s, by simp [stepLoop, h]⟩
    | reply bs =>
      have hk := hf k
      rw [h] at hk
      simp [ChanResult.isOk] at hk

/-! ### Clamp lemmas -/

theorem clamp_bounds (n mn mx : Int) (h : mn ≤ mx) :
    mn ≤ clamp n mn mx ∧ clamp n mn mx ≤ mx := by
  unfold clamp
  exact ⟨le_max_left mn (min mx n), max_le h (min_le_left mx n)⟩

theorem clamp_below (n mn mx : Int) (h : n ≤ mn) : clamp n mn mx = mn := by
  unfold clamp
  exact max_eq_left (le_trans (min_le_right mx n) h)

theorem clamp_above (n mn mx : Int) (hmx : mx ≤ n) (h : mn ≤ mx) : clamp n mn mx = mx := by
  unfold clamp
  rw [min_eq_left hmx]
  exact max_eq_right h

/-! ### Claim C5 — GetPower -/

/-- C5 (amended): `handleGetActive` never rejects; on a channel failure it
commits power Off and returns 0; on a reply containing the On marker 0x02 it
commits and returns On; on a reply without 0x02 but with the Off marker 0x01
it commits and returns Off; on an indeterminate reply (neither marker) it
leaves the state untouched and returns the previous power value — it does
not default to Off. -/
theorem c5_thm (cfg : DeviceConfig) (st : DevState) (oracle : Nat → ChanResult) (k : Nat) :
    (∃ v, (handleGetActive cfg st oracle k).res = .ok v)
    ∧ (∀ m, oracle k = .fail m →
        (handleGetActive cfg st oracle k).res = .ok 0
          ∧ (handleGetActive cfg st oracle k).st.active = 0)
    ∧ (∀ bs, oracle k = .reply bs → bs.contains 0x02 = true →
        (handleGetActive cfg st oracle k).res = .ok 1
          ∧ (handleGetActive cfg st oracle k).st.active = 1)
    ∧ (∀ bs, oracle k = .reply bs → bs.contains 0x02 = false → bs.contains 0x01 = true →
        (handleGetActive cfg st oracle k).res = .ok 0
          ∧ (handleGetActive cfg st oracle k).st.active = 0)
    ∧ (∀ bs, oracle k = .reply bs → bs.contains 0x02 = false → bs.contains 0x01 = false →
        (handleGetActive cfg st oracle k).res = .ok st.active
          ∧ (handleGetActive cfg st oracle k).st = st) := by
  refine ⟨?_, ?_, ?_, ?_, ?_⟩
  · cases h : oracle k with
    | reply bs =>
      exact ⟨if bs.contains 0x02 then 1 else if bs.contains 0x01 then 0 else st.active,
        by simp [handleGetActive, h]⟩
    | fail m => exact ⟨0, by simp [handleGetActive, h]⟩
  · intro m hm
    constructor <;> simp [handleGetActive, hm]
  · intro bs hbs h2
    have h2m : 2 ∈ bs := by simpa using h2
    constructor <;> simp [handleGetActive, hbs, h2m]
  · intro bs hbs h2 h1
    have h2m : 2 ∉ bs := by simpa using h2
    have h1m : 1 ∈ bs := by simpa using h1
    constructor <;> simp [handleGetActive, hbs, h2m, h1m]
  · intro bs hbs h2 h1
    have h2m : 2 ∉ bs := by simpa using h2
    have h1m : 1 ∉ bs := by simpa using h1
    constructor <;> simp [handleGetActive, hbs, h2m, h1m]

/-- C5, as stated, is false on the code at an indeterminate reply: with
power currently On and a reply `[0x06]` (no 0x02/0x01 status marker),
`handleGetActive` returns 1 and keeps `active = 1` instead of defaulting the
power state to Off. -/
theorem c5_counterexample :
    ([0x06] : List Nat).contains 0x02 = false
    ∧ ([0x06] : List Nat).contains 0x01 = false
    ∧ (handleGetActive cfgA stOn oracleAck 0).res = .ok 1
    ∧ (handleGetActive cfgA stOn oracleAck 0).st.active = 1 :=
  ⟨rfl, rfl, rfl, rfl⟩

/-- C5 witness: the indeterminate-reply branch at a concrete input. -/
theorem c5_witness :
    (handleGetActive cfgA stOn oracleAck 0).res = .ok stOn.active
    ∧ (handleGetActive cfgA stOn oracleAck 0).st = stOn :=
  (c5_thm cfgA stOn oracleAck 0).2.2.2.2 [0x06] rfl rfl rfl

/-! ### Claim C6 — SetInput with an unknown identifier -/

/-- C6 (amended): for an identifier with no configured input definition,
`_setInputByIdentifier` logs the problem and resolves successfully (it does
not reject with an error), issues zero wire commands, and leaves the device
state — in particular `activeIdentifier` — unchanged. -/
theorem c6_thm (cfg : DeviceConfig) (st : DevState) (oracle : Nat → ChanResult) (k : Nat)
    (ident : Int) (h : cfg.inputs.find? (fun x => x.identifier == ident) = none) :
    setInputByIdentifier cfg st oracle k ident = ⟨.ok (), st, k, []⟩ := by
  simp [setInputByIdentifier, codeFromIdentifier, h]

/-- C6, as stated, is false on the code: with no input of identifier 99
configured, the operation resolves with success rather than failing with an
UnknownInput error (the zero-wire-commands and unchanged-state parts do
hold). -/
theorem c6_counterexample :
    cfgA.inputs.find? (fun x => x.identifier == 99) = none
    ∧ (setInputByIdentifier cfgA stOn oracleAck 0 99).res = .ok ()
    ∧ (setInputByIdentifier cfgA stOn oracleAck 0 99).trace = []
    ∧ (setInputByIdentifier cfgA stOn oracleAck 0 99).st = stOn :=
  ⟨rfl, rfl, rfl, rfl⟩

/-- C6 witness: identifier 99 against the device configured with input 1
only. -/
theorem c6_witness :
    setInputByIdentifier cfgA stOn oracleFail 0 99 = ⟨.ok (), stOn, 0, []⟩ :=
  c6_thm cfgA stOn oracleFail 0 99 rfl

/-! ### Claim C10 — SetVolume with no configured volume mode -/

/-- C10: with no absolute set code and no complete up/down code pair, and
the device already On, `handleSetVolume` issues zero wire commands yet still
commits `volume.current` to the clamped target and resolves successfully —
the local volume state changes although nothing reached the device. -/
theorem c10_thm (cfg : DeviceConfig) (st : DevState) (oracle : Nat → ChanResult) (k : Nat)
    (val : Int) (hOn : st.active = 1) (hset : cfg.volume.setCode = none)
    (hud : cfg.volume.upCode = none ∨ cfg.volume.downCode = none) :
    handleSetVolume cfg st oracle k val
      = ⟨.ok (), { st with volCurrent := clamp val cfg.volume.min cfg.volume.max }, k, []⟩ := by
  have he := ensureOn_active_one cfg st oracle k hOn
  rcases hud with h | h
  · simp [handleSetVolume, he, hset, h]
  · cases hu : cfg.volume.upCode with
    | none => simp [handleSetVolume, he, hset, hu]
    | some u => simp [handleSetVolume, he, hset, hu, h]

/-- C10 witness: volume axis with only an up code, target 30 from current
10 — no wire traffic, committed current 30. -/
theorem c10_witness :
    handleSetVolume cfgHalf stOn oracleAck 0 30
      = ⟨.ok (), { stOn with volCurrent := 30 }, 0, []⟩ :=
  c10_thm cfgHalf stOn oracleAck 0 30 rfl rfl (Or.inr rfl)

/-! ### Claim C4 — relative stepping -/

/-- C4: for a relative-mode axis (no absolute set code, both up and down
codes configured), with the device already On and every channel transmission
succeeding, SetVolume/SetBrightness issue exactly
`|clamped target - current|` single-step commands — the up code iff
`target > current`, the down code iff `target < current`, none when they are
equal — each followed by the configured inter-step delay, and then commit
`current = target`. -/
theorem c4_thm (cfg : DeviceConfig) (st : DevState) (oracle : Nat → ChanResult) (k : Nat)
    (valV valB : Int) (u d u2 d2 : Nat)
    (hOn : st.active = 1)
    (hv0 : cfg.volume.setCode = none) (hv1 : cfg.volume.upCode = some u)
    (hv2 : cfg.volume.downCode = some d)
    (hb0 : cfg.brightness.setCode = none) (hb1 : cfg.brightness.upCode = some u2)
    (hb2 : cfg.brightness.downCode = some d2)
    (hok : ∀ j, (oracle j).isOk = true) :
    handleSetVolume cfg st oracle k valV
      = ⟨.ok (), { st with volCurrent := clamp valV cfg.volume.min cfg.volume.max },
          k + (clamp valV cfg.volume.min cfg.volume.max - st.volCurrent).natAbs,
          stepTrace (clamp valV cfg.volume.min cfg.volume.max - st.volCurrent).natAbs
            (if st.volCurrent < clamp valV cfg.volume.min cfg.volume.max then parseCode u
             else parseCode d)
            cfg.volume.stepMs⟩
    ∧ setBrightness cfg st oracle k valB
      = ⟨.ok (), { st with brightCurrent := clamp valB cfg.brightness.min cfg.brightness.max },
          k + (clamp valB cfg.brightness.min cfg.brightness.max - st.brightCurrent).natAbs,
          stepTrace (clamp valB cfg.brightness.min cfg.brightness.max - st.brightCurrent).natAbs
            (if st.brightCurrent < clamp valB cfg.brightness.min cfg.brightness.max then parseCode u2
             else parseCode d2)
            cfg.brightness.stepMs⟩ := by
  have he := ensureOn_active_one cfg st oracle k hOn
  have hsv := stepLoop_ok oracle k
      (clamp valV cfg.volume.min cfg.volume.max - st.volCurrent).natAbs
      (if st.volCurrent < clamp valV cfg.volume.min cfg.volume.max then parseCode u
       else parseCode d)
      cfg.volume.stepMs hok
  have hsb := stepLoop_ok oracle k
      (clamp valB cfg.brightness.min cfg.brightness.max - st.brightCurrent).natAbs
      (if st.brightCurrent < clamp valB cfg.brightness.min cfg.brightness.max then parseCode u2
       else parseCode d2)
      cfg.brightness.stepMs hok
  constructor
  · simp [handleSetVolume, he, hv0, hv1, hv2, gt_iff_lt, sub_pos, hsv]
  · simp [setBrightness, hb0, hb1, hb2, gt_iff_lt, sub_pos, hsb]

/-- C4 witness: relative volume (up 1, down 2) stepping 10 → 13 issues three
up commands; relative brightness (up 3, down 4) stepping 50 → 47 issues
three down commands; both with 120ms inter-step delays and committed
targets. -/
theorem c4_witness :
    handleSetVolume cfgRel stOn oracleAck 0 13
      = ⟨.ok (), { stOn with volCurrent := 13 }, 3, stepTrace 3 1 120⟩
    ∧ setBrightness cfgRel stOn oracleAck 0 47
      = ⟨.ok (), { stOn with brightCurrent := 47 }, 3, stepTrace 3 4 120⟩ :=
  c4_thm cfgRel stOn oracleAck 0 13 47 1 2 3 4 rfl rfl rfl rfl rfl rfl rfl (fun _ => rfl)

/-! ### Operation shape lemmas -/

theorem handleSetVolume_cases (cfg : DeviceConfig) (st : DevState) (oracle : Nat → ChanResult)
    (k : Nat) (val : Int) :
    ∃ a, (a = st.active ∨ a = 1)
      ∧ (((handleSetVolume cfg st oracle k val).res = .ok ()
            ∧ (handleSetVolume cfg st oracle k val).st
                = { st with active := a, volCurrent := clamp val cfg.volume.min cfg.volume.max })
         ∨ ((∃ e, (handleSetVolume cfg st oracle k val).res = .error e)
            ∧ (handleSetVolume cfg st oracle k val).st = { st with active := a })) := by
  have core : ∀ (st1 : DevState) (k1 : Nat) (tr1 : List WireEvt),
      ensureOn cfg st oracle k = ⟨.ok (), st1, k1, tr1⟩ →
      (((handleSetVolume cfg st oracle k val).res = .ok ()
          ∧ (handleSetVolume cfg st oracle k val).st
              = { st1 with volCurrent := clamp val cfg.volume.min cfg.volume.max })
       ∨ ((∃ e, (handleSetVolume cfg st oracle k val).res = .error e)
          ∧ (handleSetVolume cfg st oracle k val).st = st1)) := by
    intro st1 k1 tr1 he
    cases hsc : cfg.volume.setCode with
    | some sc =>
      cases h2 : oracle k1 with
      | fail m =>
        exact Or.inr ⟨⟨.channel m, by simp [handleSetVolume, he, hsc, h2]⟩,
          by simp [handleSetVolume, he, hsc, h2]⟩
      | reply bs =>
        exact Or.inl ⟨by simp [handleSetVolume, he, hsc, h2],
          by simp [handleSetVolume, he, hsc, h2]⟩
    | none =>
      cases hu : cfg.volume.upCode with
      | none =>
        exact Or.inl ⟨by simp [handleSetVolume, he, hsc, hu],
          by simp [handleSetVolume, he, hsc, hu]⟩
      | some up =>
        cases hd : cfg.volume.downCode with
        | none =>
          exact Or.inl ⟨by simp [handleSetVolume, he, hsc, hu, hd],
            by simp [handleSetVolume, he, hsc, hu, hd]⟩
        | some down =>
          rcases stepLoop_cases oracle k1
              (clamp val cfg.volume.min cfg.volume.max - st1.volCurrent).natAbs
              (if st1.volCurrent < clamp val cfg.volume.min cfg.volume.max then parseCode up
               else parseCode down)
              cfg.volume.stepMs with ⟨k2, tr2, hh⟩ | ⟨m, k2, tr2, hh⟩
          · exact Or.inl ⟨by simp [handleSetVolume, he, hsc, hu, hd, hh],
              by simp [handleSetVolume, he, hsc, hu, hd, hh]⟩
          · exact Or.inr ⟨⟨.channel m, by simp [handleSetVolume, he, hsc, hu, hd, hh]⟩,
              by simp [handleSetVolume, he, hsc, hu, hd, hh]⟩
  rcases ensureOn_cases cfg st oracle k with he | ⟨m, he⟩ | he | he
  · exact ⟨st.active, Or.inl rfl, core st k [] he⟩
  · exact ⟨st.active, Or.inl rfl,
      Or.inr ⟨⟨.channel m, by simp [handleSetVolume, he]⟩, by simp [handleSetVolume, he]⟩⟩
  · exact ⟨st.active, Or.inl rfl,
      Or.inr ⟨⟨.rejected rejectedCmdMsg, by simp [handleSetVolume, he]⟩,
        by simp [handleSetVolume, he]⟩⟩
  · exact ⟨1, Or.inr rfl, core { st with active := 1 } (k + 1) [.send [0x18, 0x02], .sleep 300] he⟩

theorem setBrightness_cases (cfg : DeviceConfig) (st : DevState) (oracle : Nat → ChanResult)
    (k : Nat) (val : Int) :
    ((setBrightness cfg st oracle k val).res = .ok ()
        ∧ (setBrightness cfg st oracle k val).st
            = { st with brightCurrent := clamp val cfg.brightness.min cfg.brightness.max })
    ∨ ((∃ e, (setBrightness cfg st oracle k val).res = .error e)
        ∧ (setBrightness cfg st oracle k val).st = st) := by
  cases hsc : cfg.brightness.setCode with
  | some sc =>
    cases h2 : oracle k with
    | fail m =>
      exact Or.inr ⟨⟨.channel m, by simp [setBrightness, hsc, h2]⟩, by simp [setBrightness, hsc, h2]⟩
    | reply bs =>
      exact Or.inl ⟨by simp [setBrightness, hsc, h2], by simp [setBrightness, hsc, h2]⟩
  | none =>
    cases hu : cfg.brightness.upCode with
    | none =>
      cases h2 : oracle k with
      | fail m =>
        exact Or.inl ⟨by simp [setBrightness, hsc, hu, h2], by simp [setBrightness, hsc, hu, h2]⟩
      | reply bs =>
        exact Or.inl ⟨by simp [setBrightness, hsc, hu, h2], by simp [setBrightness, hsc, hu, h2]⟩
    | some up =>
      cases hd : cfg.brightness.downCode with
      | none =>
        cases h2 : oracle k with
        | fail m =>
          exact Or.inl ⟨by simp [setBrightness, hsc, hu, hd, h2],
            by simp [setBrightness, hsc, hu, hd, h2]⟩
        | reply bs =>
          exact Or.inl ⟨by simp [setBrightness, hsc, hu, hd, h2],
            by simp [setBrightness, hsc, hu, hd, h2]⟩
      | some down =>
        rcases stepLoop_cases oracle k
            (clamp val cfg.brightness.min cfg.brightness.max - st.brightCurrent).natAbs
            (if st.brightCurrent < clamp val cfg.brightness.min cfg.brightness.max then
              parseCode up
             else parseCode down)
            cfg.brightness.stepMs with ⟨k2, tr2, hh⟩ | ⟨m, k2, tr2, hh⟩
        · exact Or.inl ⟨by simp [setBrightness, hsc, hu, hd, hh],
            by simp [setBrightness, hsc, hu, hd, hh]⟩
        · exact Or.inr ⟨⟨.channel m, by simp [setBrightness, hsc, hu, hd, hh]⟩,
            by simp [setBrightness, hsc, hu, hd, hh]⟩

theorem handleSetMute_cases (cfg : DeviceConfig) (st : DevState) (oracle : Nat → ChanResult)
    (k : Nat) (mv : Bool) :
    ∃ a, (a = st.active ∨ a = 1)
      ∧ (((handleSetMute cfg st oracle k mv).res = .ok ()
            ∧ (handleSetMute cfg st oracle k mv).st = { st with active := a, muted := mv })
         ∨ ((∃ e, (handleSetMute cfg st oracle k mv).res = .error e)
            ∧ (handleSetMute cfg st oracle k mv).st = { st with active := a })) := by
  have core : ∀ (st1 : DevState) (k1 : Nat) (tr1 : List WireEvt),
      ensureOn cfg st oracle k = ⟨.ok (), st1, k1, tr1⟩ →
      (((handleSetMute cfg st oracle k mv).res = .ok ()
          ∧ (handleSetMute cfg st oracle k mv).st = { st1 with muted := mv })
       ∨ ((∃ e, (handleSetMute cfg st oracle k mv).res = .error e)
          ∧ (handleSetMute cfg st oracle k mv).st = st1)) := by
    intro st1 k1 tr1 he
    cases hmc : cfg.muteSetCode with
    | some mc =>
      cases h2 : oracle k1 with
      | fail m =>
        exact Or.inr ⟨⟨.channel m, by simp [handleSetMute, he, hmc, h2]⟩,
          by simp [handleSetMute, he, hmc, h2]⟩
      | reply bs =>
        exact Or.inl ⟨by simp [handleSetMute, he, hmc, h2], by simp [handleSetMute, he, hmc, h2]⟩
    | none =>
      cases htc : cfg.muteToggleCode with
      | none =>
        exact Or.inl ⟨by simp [handleSetMute, he, hmc, htc], by simp [handleSetMute, he, hmc, htc]⟩
      | some tc =>
        by_cases hne : mv = st1.muted
        · exact Or.inl ⟨by simp [handleSetMute, he, hmc, htc, hne],
            by simp [handleSetMute, he, hmc, htc, hne]⟩
        · cases h2 : oracle k1 with
          | fail m =>
            exact Or.inr ⟨⟨.channel m, by simp [handleSetMute, he, hmc, htc, hne, h2]⟩,
              by simp [handleSetMute, he, hmc, htc, hne, h2]⟩
          | reply bs =>
            exact Or.inl ⟨by simp [handleSetMute, he, hmc, htc, hne, h2],
              by simp [handleSetMute, he, hmc, htc, hne, h2]⟩
  rcases ensureOn_cases cfg st oracle k with he | ⟨m, he⟩ | he | he
  · exact ⟨st.active, Or.inl rfl, core st k [] he⟩
  · exact ⟨st.active, Or.inl rfl,
      Or.inr ⟨⟨.channel m, by simp [handleSetMute, he]⟩, by simp [handleSetMute, he]⟩⟩
  · exact ⟨st.active, Or.inl rfl,
      Or.inr ⟨⟨.rejected rejectedCmdMsg, by simp [handleSetMute, he]⟩,
        by simp [handleSetMute, he]⟩⟩
  · exact ⟨1, Or.inr rfl, core { st with active := 1 } (k + 1) [.send [0x18, 0x02], .sleep 300] he⟩

theorem handleSetActiveIdentifier_cases (cfg : DeviceConfig) (st : DevState)
    (oracle : Nat → ChanResult) (k : Nat) (ident : Int) :
    ∃ a, (a = st.active ∨ a = 1)
      ∧ (((handleSetActiveIdentifier cfg st oracle k ident).res = .ok ()
            ∧ ((handleSetActiveIdentifier cfg st oracle k ident).st
                  = { st with active := a, activeIdentifier := ident }
               ∨ (handleSetActiveIdentifier cfg st oracle k ident).st = { st with active := a }))
         ∨ ((∃ e, (handleSetActiveIdentifier cfg st oracle k ident).res = .error e)
            ∧ (handleSetActiveIdentifier cfg st oracle k ident).st = { st with active := a })) := by
  have core : ∀ (st1 : DevState) (k1 : Nat) (tr1 : List WireEvt),
      ensureOn cfg st oracle k = ⟨.ok (), st1, k1, tr1⟩ →
      (((handleSetActiveIdentifier cfg st oracle k ident).res = .ok ()
          ∧ ((handleSetActiveIdentifier cfg st oracle k ident).st
                = { st1 with activeIdentifier := ident }
             ∨ (handleSetActiveIdentifier cfg st oracle k ident).st = st1))
       ∨ ((∃ e, (handleSetActiveIdentifier cfg st oracle k ident).res = .error e)
          ∧ (handleSetActiveIdentifier cfg st oracle k ident).st = st1)) := by
    intro st1 k1 tr1 he
    cases hc : codeFromIdentifier cfg ident with
    | none =>
      refine Or.inl ⟨?_, Or.inr ?_⟩ <;>
        simp [handleSetActiveIdentifier, he, setInputByIdentifier, hc]
    | some code =>
      cases h2 : oracle k1 with
      | fail m =>
        exact Or.inr ⟨⟨.channel m,
          by simp [handleSetActiveIdentifier, he, setInputByIdentifier, hc, h2]⟩,
          by simp [handleSetActiveIdentifier, he, setInputByIdentifier, hc, h2]⟩
      | reply bs =>
        cases hn : (parseReply bs).nack || (parseReply bs).nav with
        | true =>
          exact Or.inr ⟨⟨.rejected rejectedInputMsg,
            by simp [handleSetActiveIdentifier, he, setInputByIdentifier, hc, h2, hn]⟩,
            by simp [handleSetActiveIdentifier, he, setInputByIdentifier, hc, h2, hn]⟩
        | false =>
          refine Or.inl ⟨?_, Or.inl ?_⟩ <;>
            simp [handleSetActiveIdentifier, he, setInputByIdentifier, hc, h2, hn]
  rcases ensureOn_cases cfg st oracle k with he | ⟨m, he⟩ | he | he
  · exact ⟨st.active, Or.inl rfl, core st k [] he⟩
  · exact ⟨st.active, Or.inl rfl,
      Or.inr ⟨⟨.channel m, by simp [handleSetActiveIdentifier, he]⟩,
        by simp [handleSetActiveIdentifier, he]⟩⟩
  · exact ⟨st.active, Or.inl rfl,
      Or.inr ⟨⟨.rejected rejectedCmdMsg, by simp [handleSetActiveIdentifier, he]⟩,
        by simp [handleSetActiveIdentifier, he]⟩⟩
  · exact ⟨1, Or.inr rfl, core { st with active := 1 } (k + 1) [.send [0x18, 0x02], .sleep 300] he⟩

theorem handleGetActive_frame (cfg : DeviceConfig) (st : DevState) (oracle : Nat → ChanResult)
    (k : Nat) :
    (handleGetActive cfg st oracle k).st.volCurrent = st.volCurrent
    ∧ (handleGetActive cfg st oracle k).st.brightCurrent = st.brightCurrent := by
  cases h : oracle k with
  | reply bs => constructor <;> simp [handleGetActive, h]
  | fail m => constructor <;> simp [handleGetActive, h]

theorem handleSetVolume_commit (cfg : DeviceConfig) (st : DevState) (oracle : Nat → ChanResult)
    (k : Nat) (val : Int) (hOn : st.active = 1) (hok : ∀ j, (oracle j).isOk = true) :
    (handleSetVolume cfg st oracle k val).st.volCurrent
      = clamp val cfg.volume.min cfg.volume.max := by
  have he := ensureOn_active_one cfg st oracle k hOn
  cases hsc : cfg.volume.setCode with
  | some sc =>
    cases h2 : oracle k with
    | fail m =>
      have hk := hok k
      rw [h2] at hk
      simp [ChanResult.isOk] at hk
    | reply bs => simp [handleSetVolume, he, hsc, h2]
  | none =>
    cases hu : cfg.volume.upCode with
    | none => simp [handleSetVolume, he, hsc, hu]
    | some up =>
      cases hd : cfg.volume.downCode with
      | none => simp [handleSetVolume, he, hsc, hu, hd]
      | some down =>
        have hs := stepLoop_ok oracle k
            (clamp val cfg.volume.min cfg.volume.max - st.volCurrent).natAbs
            (if st.volCurrent < clamp val cfg.volume.min cfg.volume.max then parseCode up
             else parseCode down)
            cfg.volume.stepMs hok
        simp [handleSetVolume, he, hsc, hu, hd, hs]

theorem setBrightness_commit (cfg : DeviceConfig) (st : DevState) (oracle : Nat → ChanResult)
    (k : Nat) (val : Int) (hok : ∀ j, (oracle j).isOk = true) :
    (setBrightness cfg st oracle k val).st.brightCurrent
      = clamp val cfg.brightness.min cfg.brightness.max := by
  cases hsc : cfg.brightness.setCode with
  | some sc =>
    cases h2 : oracle k with
    | fail m =>
      have hk := hok k
      rw [h2] at hk
      simp [ChanResult.isOk] at hk
    | reply bs => simp [setBrightness, hsc, h2]
  | none =>
    cases hu : cfg.brightness.upCode with
    | none =>
      cases h2 : oracle k with
      | fail m => simp [setBrightness, hsc, hu, h2]
      | reply bs => simp [setBrightness, hsc, hu, h2]
    | some up =>
      cases hd : cfg.brightness.downCode with
      | none =>
        cases h2 : oracle k with
        | fail m => simp [setBrightness, hsc, hu, hd, h2]
        | reply bs => simp [setBrightness, hsc, hu, hd, h2]
      | some down =>
        have hs := stepLoop_ok oracle k
            (clamp val cfg.brightness.min cfg.brightness.max - st.brightCurrent).natAbs
            (if st.brightCurrent < clamp val cfg.brightness.min cfg.brightness.max then parseCode up
             else parseCode down)
            cfg.brightness.stepMs hok
        simp [setBrightness, hsc, hu, hd, hs]

/-! ### Claim C9 — axis clamping invariant -/

/-- C9: with configured `min ≤ max` on both axes, `min ≤ current ≤ max`
holds after construction and is preserved by every engine operation (for any
channel behavior, success or failure); and, with the device On and a
responsive channel, SetVolume/SetBrightness clamp their commits: a target
below min commits exactly min and a target above max commits exactly max. -/
theorem c9_thm (cfg : DeviceConfig)
    (h1 : cfg.volume.min ≤ cfg.volume.max) (h2 : cfg.brightness.min ≤ cfg.brightness.max) :
    axisInv cfg (mkDeviceState cfg)
    ∧ (∀ st oracle k val, axisInv cfg st → axisInv cfg (handleSetVolume cfg st oracle k val).st)
    ∧ (∀ st oracle k val, axisInv cfg st → axisInv cfg (setBrightness cfg st oracle k val).st)
    ∧ (∀ st oracle k onv, axisInv cfg st → axisInv cfg (handleSetActive cfg st oracle k onv).st)
    ∧ (∀ st oracle k mv, axisInv cfg st → axisInv cfg (handleSetMute cfg st oracle k mv).st)
    ∧ (∀ st oracle k ident,
        axisInv cfg st → axisInv cfg (handleSetActiveIdentifier cfg st oracle k ident).st)
    ∧ (∀ st oracle k, axisInv cfg st → axisInv cfg (handleGetActive cfg st oracle k).st)
    ∧ (∀ st oracle k val, st.active = 1 → (∀ j, (oracle j).isOk = true) →
        val < cfg.volume.min →
        (handleSetVolume cfg st oracle k val).st.volCurrent = cfg.volume.min)
    ∧ (∀ st oracle k val, st.active = 1 → (∀ j, (oracle j).isOk = true) →
        cfg.volume.max < val →
        (handleSetVolume cfg st oracle k val).st.volCurrent = cfg.volume.max)
    ∧ (∀ st oracle k val, (∀ j, (oracle j).isOk = true) →
        val < cfg.brightness.min →
        (setBrightness cfg st oracle k val).st.brightCurrent = cfg.brightness.min)
    ∧ (∀ st oracle k val, (∀ j, (oracle j).isOk = true) →
        cfg.brightness.max < val →
        (setBrightness cfg st oracle k val).st.brightCurrent = cfg.brightness.max) := by
  refine ⟨?_, ?_, ?_, ?_, ?_, ?_, ?_, ?_, ?_, ?_, ?_⟩
  · exact ⟨(clamp_bounds cfg.volume.initial _ _ h1).1, (clamp_bounds cfg.volume.initial _ _ h1).2,
      (clamp_bounds cfg.brightness.initial _ _ h2).1,
      (clamp_bounds cfg.brightness.initial _ _ h2).2⟩
  · intro st oracle k val hinv
    obtain ⟨a, _, hc⟩ := handleSetVolume_cases cfg st oracle k val
    rcases hc with ⟨_, hst⟩ | ⟨_, hst⟩ <;> rw [hst]
    · exact ⟨(clamp_bounds val _ _ h1).1, (clamp_bounds val _ _ h1).2, hinv.2.2.1, hinv.2.2.2⟩
    · exact ⟨hinv.1, hinv.2.1, hinv.2.2.1, hinv.2.2.2⟩
  · intro st oracle k val hinv
    rcases setBrightness_cases cfg st oracle k val with ⟨_, hst⟩ | ⟨_, hst⟩ <;> rw [hst]
    · exact ⟨hinv.1, hinv.2.1, (clamp_bounds val _ _ h2).1, (clamp_bounds val _ _ h2).2⟩
    · exact hinv
  · intro st oracle k onv hinv
    rcases handleSetActive_cases cfg st oracle k onv with ⟨_, hst⟩ | ⟨_, hst⟩ <;> rw [hst] <;>
      exact ⟨hinv.1, hinv.2.1, hinv.2.2.1, hinv.2.2.2⟩
  · intro st oracle k mv hinv
    obtain ⟨a, _, hc⟩ := handleSetMute_cases cfg st oracle k mv
    rcases hc with ⟨_, hst⟩ | ⟨_, hst⟩ <;> rw [hst] <;>
      exact ⟨hinv.1, hinv.2.1, hinv.2.2.1, hinv.2.2.2⟩
  · intro st oracle k ident hinv
    obtain ⟨a, _, hc⟩ := handleSetActiveIdentifier_cases cfg st oracle k ident
    rcases hc with ⟨_, hst | hst⟩ | ⟨_, hst⟩ <;> rw [hst] <;>
      exact ⟨hinv.1, hinv.2.1, hinv.2.2.1, hinv.2.2.2⟩
  · intro st oracle k hinv
    obtain ⟨hv, hb⟩ := handleGetActive_frame cfg st oracle k
    refine ⟨?_, ?_, ?_, ?_⟩
    · rw [hv]; exact hinv.1
    · rw [hv]; exact hinv.2.1
    · rw [hb]; exact hinv.2.2.1
    · rw [hb]; exact hinv.2.2.2
  · intro st oracle k val hOn hok hlt
    rw [handleSetVolume_commit cfg st oracle k val hOn hok]
    exact clamp_below val _ _ (le_of_lt hlt)
  · intro st oracle k val hOn hok hlt
    rw [handleSetVolume_commit cfg st oracle k val hOn hok]
    exact clamp_above val _ _ (le_of_lt hlt) h1
  · intro st oracle k val hok hlt
    rw [setBrightness_commit cfg st oracle k val hok]
    exact clamp_below val _ _ (le_of_lt hlt)
  · intro st oracle k val hok hlt
    rw [setBrightness_commit cfg st oracle k val hok]
    exact clamp_above val _ _ (le_of_lt hlt) h2

/-- C9 witness: the invariant holds for the constructed state of the
concrete device. -/
theorem c9_witness : axisInv cfgA (mkDeviceState cfgA) :=
  (c9_thm cfgA (by decide) (by decide)).1

/-! ### Claim C2 — error propagation and no partial commits -/

theorem ownFrame_of_active (st : DevState) (a : Nat) (h : a = st.active ∨ a = 1) :
    ownFrame st { st with active := a } :=
  ⟨rfl, rfl, rfl, rfl, h⟩

/-- C2 (amended): when a mutating operation ends in an error, it has
committed none of its own fields — SetPower leaves the whole state
untouched, and SetVolume/SetMute/SetInput leave `volume.current`,
`volume.muted`, `brightness.current` and `activeInputIdentifier` untouched,
though a successful nested `_ensureOn` may already have committed power On;
SetBrightness in a configured mode leaves the whole state untouched.
Channel failures do propagate: against an always-failing channel each
operation either rejects with the channel error or never touched the wire at
all — except SetBrightness with an unconfigured axis, whose fallback-command
failure is swallowed (see the counterexample). -/
theorem c2_thm (cfg : DeviceConfig) (st : DevState) (oracle : Nat → ChanResult) (k : Nat)
    (onv : Bool) (valV valB ident : Int) (mv : Bool) :
    (∀ e, (handleSetActive cfg st oracle k onv).res = .error e →
        (handleSetActive cfg st oracle k onv).st = st)
    ∧ (∀ e, (handleSetVolume cfg st oracle k valV).res = .error e →
        ownFrame st (handleSetVolume cfg st oracle k valV).st)
    ∧ (∀ e, (handleSetMute cfg st oracle k mv).res = .error e →
        ownFrame st (handleSetMute cfg st oracle k mv).st)
    ∧ (∀ e, (handleSetActiveIdentifier cfg st oracle k ident).res = .error e →
        ownFrame st (handleSetActiveIdentifier cfg st oracle k ident).st)
    ∧ (∀ e, (setBrightness cfg st oracle k valB).res = .error e →
        (setBrightness cfg st oracle k valB).st = st)
    ∧ ((∀ j, (oracle j).isOk = false) →
        (∃ m, (handleSetActive cfg st oracle k onv).res = .error (.channel m))
        ∧ ((∃ m, (handleSetVolume cfg st oracle k valV).res = .error (.channel m))
            ∨ (handleSetVolume cfg st oracle k valV).trace = [])
        ∧ ((∃ m, (handleSetMute cfg st oracle k mv).res = .error (.channel m))
            ∨ (handleSetMute cfg st oracle k mv).trace = [])
        ∧ ((∃ m, (handleSetActiveIdentifier cfg st oracle k ident).res = .error (.channel m))
            ∨ (handleSetActiveIdentifier cfg st oracle k ident).trace = [])
        ∧ ((cfg.brightness.setCode.isSome = true
              ∨ (cfg.brightness.upCode.isSome = true ∧ cfg.brightness.downCode.isSome = true
                  ∧ clamp valB cfg.brightness.min cfg.brightness.max ≠ st.brightCurrent)) →
            ∃ m, (setBrightness cfg st oracle k valB).res = .error (.channel m))) := by
  refine ⟨?_, ?_, ?_, ?_, ?_, ?_⟩
  · intro e he
    rcases handleSetActive_cases cfg st oracle k onv with ⟨hok, _⟩ | ⟨_, hst⟩
    · rw [hok] at he; simp at he
    · exact hst
  · intro e he
    obtain ⟨a, ha, hc⟩ := handleSetVolume_cases cfg st oracle k valV
    rcases hc with ⟨hok, _⟩ | ⟨_, hst⟩
    · rw [hok] at he; simp at he
    · rw [hst]; exact ownFrame_of_active st a ha
  · intro e he
    obtain ⟨a, ha, hc⟩ := handleSetMute_cases cfg st oracle k mv
    rcases hc with ⟨hok, _⟩ | ⟨_, hst⟩
    · rw [hok] at he; simp at he
    · rw [hst]; exact ownFrame_of_active st a ha
  · intro e he
    obtain ⟨a, ha, hc⟩ := handleSetActiveIdentifier_cases cfg st oracle k ident
    rcases hc with ⟨hok, _⟩ | ⟨_, hst⟩
    · rw [hok] at he; simp at he
    · rw [hst]; exact ownFrame_of_active st a ha
  · intro e he
    rcases setBrightness_cases cfg st oracle k valB with ⟨hok, _⟩ | ⟨_, hst⟩
    · rw [hok] at he; simp at he
    · exact hst
  · intro hf
    refine ⟨?_, ?_, ?_, ?_, ?_⟩
    · cases h : oracle k with
      | reply bs =>
        have hk := hf k; rw [h] at hk; simp [ChanResult.isOk] at hk
      | fail m => exact ⟨m, by simp [handleSetActive, h]⟩
    · rcases ensureOn_allfail cfg st oracle k hf with ⟨ha, he⟩ | ⟨m, he⟩
      · cases hsc : cfg.volume.setCode with
        | some sc =>
          cases h2 : oracle k with
          | reply bs => have hk := hf k; rw [h2] at hk; simp [ChanResult.isOk] at hk
          | fail m2 => exact Or.inl ⟨m2, by simp [handleSetVolume, he, hsc, h2]⟩
        | none =>
          cases hu : cfg.volume.upCode with
          | none => exact Or.inr (by simp [handleSetVolume, he, hsc, hu])
          | some up =>
            cases hd : cfg.volume.downCode with
            | none => exact Or.inr (by simp [handleSetVolume, he, hsc, hu, hd])
            | some down =>
              rcases stepLoop_allfail oracle k
                  (clamp valV cfg.volume.min cfg.volume.max - st.volCurrent).natAbs
                  (if st.volCurrent < clamp valV cfg.volume.min cfg.volume.max then parseCode up
                   else parseCode down)
                  cfg.volume.stepMs hf with ⟨h0, hs⟩ | ⟨m2, hs⟩
              · exact Or.inr (by simp [handleSetVolume, he, hsc, hu, hd, hs])
              · exact Or.inl ⟨m2, by simp [handleSetVolume, he, hsc, hu, hd, hs]⟩
      · exact Or.inl ⟨m, by simp [handleSetVolume, he]⟩
    · rcases ensureOn_allfail cfg st oracle k hf with ⟨ha, he⟩ | ⟨m, he⟩
      · cases hmc : cfg.muteSetCode with
        | some mc =>
          cases h2 : oracle k with
          | reply bs => have hk := hf k; rw [h2] at hk; simp [ChanResult.isOk] at hk
          | fail m2 => exact Or.inl ⟨m2, by simp [handleSetMute, he, hmc, h2]⟩
        | none =>
          cases htc : cfg.muteToggleCode with
          | none => exact Or.inr (by simp [handleSetMute, he, hmc, htc])
          | some tc =>
            by_cases hne : mv = st.muted
            · exact Or.inr (by simp [handleSetMute, he, hmc, htc, hne])
            · cases h2 : oracle k with
              | reply bs => have hk := hf k; rw [h2] at hk; simp [ChanResult.isOk] at hk
              | fail m2 =>
                exact Or.inl ⟨m2, by simp [handleSetMute, he, hmc, htc, hne, h2]⟩
      · exact Or.inl ⟨m, by simp [handleSetMute, he]⟩
    · rcases ensureOn_allfail cfg st oracle k hf with ⟨ha, he⟩ | ⟨m, he⟩
      · cases hc : codeFromIdentifier cfg ident with
        | none =>
          exact Or.inr (by simp [handleSetActiveIdentifier, he, setInputByIdentifier, hc])
        | some code =>
          cases h2 : oracle k with
          | reply bs => have hk := hf k; rw [h2] at hk; simp [ChanResult.isOk] at hk
          | fail m2 =>
            exact Or.inl ⟨m2,
              by simp [handleSetActiveIdentifier, he, setInputByIdentifier, hc, h2]⟩
      · exact Or.inl ⟨m, by simp [handleSetActiveIdentifier, he]⟩
    · intro hconf
      cases hsc : cfg.brightness.setCode with
      | some sc =>
        cases h2 : oracle k with
        | reply bs => have hk := hf k; rw [h2] at hk; simp [ChanResult.isOk] at hk
        | fail m2 => exact ⟨m2, by simp [setBrightness, hsc, h2]⟩
      | none =>
        rcases hconf with hs | ⟨hu2, hd2, hne⟩
        · rw [hsc] at hs; simp at hs
        · cases hu : cfg.brightness.upCode with
          | none => rw [hu] at hu2; simp at hu2
          | some up =>
            cases hd : cfg.brightness.downCode with
            | none => rw [hd] at hd2; simp at hd2
            | some down =>
              rcases stepLoop_allfail oracle k
                  (clamp valB cfg.brightness.min cfg.brightness.max - st.brightCurrent).natAbs
                  (if st.brightCurrent < clamp valB cfg.brightness.min cfg.brightness.max then
                    parseCode up
                   else parseCode down)
                  cfg.brightness.stepMs hf with ⟨h0, hs2⟩ | ⟨m2, hs2⟩
              · exact absurd (sub_eq_zero.mp (Int.natAbs_eq_zero.mp h0)) hne
              · exact ⟨m2, by simp [setBrightness, hsc, hu, hd, hs2]⟩

/-- C2, as stated, is false on the code: SetBrightness with an unconfigured
brightness axis sends the default 0x32 fallback, catches the channel's
connection failure instead of propagating it, and still commits
`brightness.current` to the clamped target (here 50 → 30). -/
theorem c2_counterexample :
    (∀ j, (oracleFail j).isOk = false)
    ∧ (setBrightness cfgA stOn oracleFail 0 30).res = .ok ()
    ∧ stOn.brightCurrent = 50
    ∧ (setBrightness cfgA stOn oracleFail 0 30).st.brightCurrent = 30 :=
  ⟨fun _ => rfl, rfl, rfl, rfl⟩

/-- C2 witness: SetPower against a refusing channel errors and leaves the
state untouched. -/
theorem c2_witness :
    (handleSetActive cfgA stOn oracleFail 0 true).st = stOn :=
  (c2_thm cfgA stOn oracleFail 0 true 0 0 0 false).1 (.channel failMsg) rfl
